import Mathlib

/-!
Verification of the customer-support ticketing dashboard
(front-end ticket filtering, API-client wrapper, mock tickets route,
and the new-ticket submit handler) against its specification.

The TypeScript sources are shallowly embedded: JavaScript strings become
`String`, `string | null` values become `Option String`, JSON values become
the inductive `Json`, and a thrown exception is an `Except.error`.
`toLowerCase` is modelled character-wise (ASCII case folding), and
`String.prototype.includes` as a contiguous-substring test.
-/

namespace PortiaDashboard

/-- Model of `needle` being a prefix of `hay` (character lists). -/
def charsLead : List Char → List Char → Bool
  | [], _ => true
  | _ :: _, [] => false
  | a :: as, b :: bs => a == b && charsLead as bs

/-- Model of JavaScript `hay.includes(needle)` on character lists:
`needle` occurs contiguously in `hay`. -/
def charsIncl : List Char → List Char → Bool
  | n, [] => n.isEmpty
  | n, c :: t => charsLead n (c :: t) || charsIncl n t

/-- JavaScript `hay.includes(needle)` (contiguous substring test). -/
def strIncludes (hay needle : String) : Bool :=
  charsIncl needle.data hay.data

/-- JavaScript `s.toLowerCase()` modelled as ASCII case folding. -/
def strToLower (s : String) : String :=
  ⟨s.data.map Char.toLower⟩

/-- JavaScript `a || b` on a possibly-absent string: `none` and the empty
string are falsy. -/
def jsStrOr (a : Option String) (b : String) : String :=
  match a with
  | some s => if s = "" then b else s
  | none => b

/-- The empty needle occurs in every haystack. -/
theorem charsIncl_nil (l : List Char) : charsIncl [] l = true := by
  cases l <;> rfl

/-- `strIncludes hay ""` is always `true`, matching JavaScript
`hay.includes("")`. -/
theorem strIncludes_empty (hay : String) : strIncludes hay "" = true := by
  simpa [strIncludes] using charsIncl_nil hay.data

/-! ## Tickets page of `src/unnamed/part_003` (mock-data tickets page)

Ticket objects there carry `id`, `subject`, `customer` (an e-mail address),
`status`, `priority` (plus display-only fields irrelevant to filtering). -/

structure Ticket where
  id : String
  subject : String
  customer : String
  status : String
  priority : String
deriving DecidableEq, Repr

/-- Embedding of `filterTickets` from `src/unnamed/part_003`:
an optional case-insensitive search pass over subject / customer / id,
then exact status and priority filters, each disabled by `"all"`.
A non-empty search string is truthy in JavaScript, hence the `search ≠ ""`
guard. -/
def filterTickets (tickets : List Ticket) (search status priority : String) :
    List Ticket :=
  let f1 :=
    if search ≠ "" then
      tickets.filter (fun t =>
        strIncludes (strToLower t.subject) (strToLower search) ||
        strIncludes (strToLower t.customer) (strToLower search) ||
        strIncludes (strToLower t.id) (strToLower search))
    else tickets
  let f2 := if status ≠ "all" then f1.filter (fun t => t.status == status) else f1
  if priority ≠ "all" then f2.filter (fun t => t.priority == priority) else f2

/-- The specification's search predicate, stated from the spec's words:
the ticket's id, subject, or customer e-mail contains the search string as a
case-insensitive substring. -/
def matchesSearchSpec (search id subject email : String) : Bool :=
  strIncludes (strToLower id) (strToLower search) ||
  strIncludes (strToLower subject) (strToLower search) ||
  strIncludes (strToLower email) (strToLower search)

/-! ## Tickets page of `src/frontend/src/app/dashboard/tickets/page.tsx`

The backend-driven page; its client-side `useEffect` filter searches subject,
resolved customer e-mail, and id. The customer e-mail may arrive as a flat
`customer_email` field or nested as `customer.email`. -/

structure FTicket where
  id : String
  subject : String
  customer_email : Option String
  nestedCustomerEmail : Option String
  status : String
  priority : String
deriving DecidableEq, Repr

/-- `(t.customer_email) || (t.customer?.email) || ''` from the filter
`useEffect`. -/
def resolvedCustomerEmail (t : FTicket) : String :=
  jsStrOr t.customer_email (jsStrOr t.nestedCustomerEmail "")

/-- Embedding of the client-side filter `useEffect` of
`src/frontend/src/app/dashboard/tickets/page.tsx`: the search string is
lowercased once; an empty search keeps every ticket; otherwise a ticket is
kept when its lowercased subject, resolved customer e-mail, or id contains
the search string. -/
def clientFilterTickets (tickets : List FTicket) (searchQuery : String) :
    List FTicket :=
  let search := strToLower searchQuery
  tickets.filter (fun t =>
    if search = "" then true
    else
      strIncludes (strToLower t.subject) search ||
      strIncludes (strToLower (resolvedCustomerEmail t)) search ||
      strIncludes (strToLower t.id) search)

/-- Embedding of `getStatusColor` from
`src/frontend/src/app/dashboard/tickets/page.tsx`: `(status || '')` is
lowercased and matched against the known labels; everything else falls
through to the gray default. The argument is `Option String` so that an
absent status is representable. -/
def getStatusColor (status : Option String) : String :=
  let s := strToLower (jsStrOr status "")
  if s = "open" then "bg-red-100 text-red-800 dark:bg-red-900 dark:text-red-200"
  else if s = "in_progress" then
    "bg-yellow-100 text-yellow-800 dark:bg-yellow-900 dark:text-yellow-200"
  else if s = "waiting_approval" then
    "bg-orange-100 text-orange-800 dark:bg-orange-900 dark:text-orange-200"
  else if s = "resolved" then
    "bg-green-100 text-green-800 dark:bg-green-900 dark:text-green-200"
  else if s = "closed" then
    "bg-gray-100 text-gray-800 dark:bg-gray-900 dark:text-gray-200"
  else "bg-gray-100 text-gray-800 dark:bg-gray-900 dark:text-gray-200"

/-! ## JSON values and the two API clients

`src/unnamed/part_005` holds the current `ApiClient` (token injection,
`no-store`, array normalization, catch-all error conversion); the earlier
`ApiClient` of `src/unnamed/part_007` parses the body, throws on a non-ok
status and rethrows from its catch block. A thrown JavaScript exception is
modelled as `Except.error`. -/

inductive Json where
  | null : Json
  | bool (b : Bool) : Json
  | num (n : Int) : Json
  | str (s : String) : Json
  | arr (elems : List Json) : Json
  | obj (fields : List (String × Json)) : Json

/-- First binding of a key in a JavaScript object literal's field list. -/
def lookupField : List (String × Json) → String → Option Json
  | [], _ => none
  | (k, v) :: rest, key => if k = key then some v else lookupField rest key

/-- JavaScript optional member access `j?.k`: a field of an object, absent
otherwise. -/
def Json.getField : Json → String → Option Json
  | .obj fields, key => lookupField fields key
  | _, _ => none

/-- JavaScript truthiness of a JSON value. -/
def jsTruthy : Json → Bool
  | .null => false
  | .bool b => b
  | .num n => n != 0
  | .str s => s != ""
  | .arr _ => true
  | .obj _ => true

/-- JavaScript string coercion `String(v)` of a JSON value. -/
def jsToStr : Json → String
  | .null => "null"
  | .bool true => "true"
  | .bool false => "false"
  | .num n => toString n
  | .str s => s
  | .arr elems => String.intercalate "," (elems.attach.map fun e => jsToStr e.1)
  | .obj _ => "[object Object]"
decreasing_by
have h := List.sizeOf_lt_of_mem e.2
simp only [Json.arr.sizeOf_spec]
omega

/-- Whether a JSON value is an array (`Array.isArray`). -/
def Json.isArr : Json → Bool
  | .arr _ => true
  | _ => false

/-- `j?.message || fallback`: the `message` field when truthy (coerced to a
string), else the fallback. -/
def jsMessageOr (j : Json) (fallback : String) : String :=
  match j.getField "message" with
  | some v => if jsTruthy v then jsToStr v else fallback
  | none => fallback

/-- An HTTP response as the clients observe it: status, status text,
whether the content type advertises JSON (the part_005 client only parses
the body then), and the parsed body. -/
structure HttpResponse where
  status : Nat
  statusText : String
  contentTypeJson : Bool
  body : Json

/-- `Response.ok` of the Fetch API: the status is in the 2xx range. -/
def HttpResponse.isOk (r : HttpResponse) : Bool :=
  200 ≤ r.status && r.status < 300

/-- Outcome of one `fetch` call: either the promise rejected (network
error, abort, body-parse failure — anything thrown inside the `try`) with
an error message, or a response arrived. -/
inductive HttpOutcome where
  | thrown (msg : String)
  | response (r : HttpResponse)

/-- Whether the outcome is a 2xx response. -/
def HttpOutcome.isOk : HttpOutcome → Bool
  | .thrown _ => false
  | .response r => r.isOk

/-- The `{success, data, error, message}` result shape of the part_005
client. `data` is the JSON value placed in the `data` field (`Json.null`
for an explicit `null`); absent fields are `none`. -/
structure ApiResponse where
  success : Bool
  data : Json
  error : Option String
  message : Option Json

/-- The error message the part_005 client reports for a failing outcome:
the thrown message, or `data?.message || statusText || "HTTP <status>"`
for a non-ok response. -/
def failureMessage : HttpOutcome → String
  | .thrown msg => msg
  | .response r =>
    let data := if r.contentTypeJson then r.body else Json.null
    jsMessageOr data (if r.statusText ≠ "" then r.statusText else "HTTP " ++ toString r.status)

/-- Embedding of `ApiClient.request` from `src/unnamed/part_005`: parse the
body when the content type is JSON, turn a non-ok response or any thrown
error into `{success: false, data: null, error}`, normalize a bare-array
body into `{tickets, total}`, and pass any other body through as `data`. -/
def request505 : HttpOutcome → ApiResponse
  | .thrown msg => { success := false, data := .null, error := some msg, message := none }
  | .response r =>
    let data := if r.contentTypeJson then r.body else Json.null
    if r.isOk then
      match data with
      | .arr elems =>
        { success := true,
          data := .obj [("tickets", .arr elems), ("total", .num elems.length)],
          error := none, message := none }
      | d => { success := true, data := d, error := none, message := d.getField "message" }
    else
      { success := false, data := .null,
        error := some (jsMessageOr data
          (if r.statusText ≠ "" then r.statusText else "HTTP " ++ toString r.status)),
        message := none }

/-- Embedding of `ApiClient.request` from `src/unnamed/part_007`: the body
is parsed unconditionally (a non-JSON body makes `response.json()` throw),
a non-ok status throws `data.message || "HTTP <status>"`, and the catch
block logs and rethrows — so the caller sees `Except.error` instead of a
result record. -/
def request707 : HttpOutcome → Except String Json
  | .thrown msg => .error msg
  | .response r =>
    if r.contentTypeJson then
      if r.isOk then .ok r.body
      else .error (jsMessageOr r.body ("HTTP " ++ toString r.status))
    else .error "Unexpected end of JSON input"

/-- The two example tickets of the specification's worked example. -/
def exTicket1 : Ticket :=
  { id := "TKT-1", subject := "Login issue", customer := "a@x.com",
    status := "open", priority := "high" }

/-- Second example ticket of the specification's worked example. -/
def exTicket2 : Ticket :=
  { id := "TKT-2", subject := "Billing", customer := "b@x.com",
    status := "resolved", priority := "low" }

/-- `strToLower` of the empty string is the empty string. -/
theorem strToLower_empty : strToLower "" = "" := rfl

/-- The code's search disjunction (subject, customer, id) agrees with the
spec's (id, subject, email) pointwise. -/
theorem codeSearch_eq_spec (s : String) (t : Ticket) :
    (strIncludes (strToLower t.subject) (strToLower s) ||
     strIncludes (strToLower t.customer) (strToLower s) ||
     strIncludes (strToLower t.id) (strToLower s)) =
      matchesSearchSpec s t.id t.subject t.customer := by
  simp only [matchesSearchSpec]
  cases strIncludes (strToLower t.subject) (strToLower s) <;>
    cases strIncludes (strToLower t.customer) (strToLower s) <;>
    cases strIncludes (strToLower t.id) (strToLower s) <;> rfl

/-- C1: for every ticket list and search string, both client-side filters
(with the status and priority filters disabled by `"all"` where present)
return exactly the tickets whose id, subject, or customer e-mail contains
the search string case-insensitively: membership in the output is
equivalent to membership in the input plus the spec's match predicate. -/
theorem filter_returns_exactly_matching_subset :
    (∀ (L : List Ticket) (s : String) (t : Ticket),
      t ∈ filterTickets L s "all" "all" ↔
        t ∈ L ∧ matchesSearchSpec s t.id t.subject t.customer = true) ∧
    (∀ (L : List FTicket) (s : String) (t : FTicket),
      t ∈ clientFilterTickets L s ↔
        t ∈ L ∧
          matchesSearchSpec s t.id t.subject (resolvedCustomerEmail t) = true) := by
  constructor
  · intro L s t
    by_cases hs : s = ""
    · subst hs
      simp [filterTickets, matchesSearchSpec, strToLower_empty, strIncludes_empty]
    · simp [filterTickets, hs, List.mem_filter, codeSearch_eq_spec]
  · intro L s t
    by_cases hs : strToLower s = ""
    · simp [clientFilterTickets, hs, matchesSearchSpec, strIncludes_empty,
        List.mem_filter]
    · simp only [clientFilterTickets, List.mem_filter, if_neg hs,
        matchesSearchSpec]
      constructor
      · rintro ⟨h1, h2⟩
        refine ⟨h1, ?_⟩
        revert h2
        cases strIncludes (strToLower t.subject) (strToLower s) <;>
          cases strIncludes (strToLower (resolvedCustomerEmail t)) (strToLower s) <;>
          cases strIncludes (strToLower t.id) (strToLower s) <;> simp
      · rintro ⟨h1, h2⟩
        refine ⟨h1, ?_⟩
        revert h2
        cases strIncludes (strToLower t.subject) (strToLower s) <;>
          cases strIncludes (strToLower (resolvedCustomerEmail t)) (strToLower s) <;>
          cases strIncludes (strToLower t.id) (strToLower s) <;> simp

/-- C2: filtering with status (resp. priority) `"all"` is the identity, and
any other status (resp. priority) value restricts to exact matches. -/
theorem filter_all_noop_other_exact (L : List Ticket) (v : String) :
    filterTickets L "" "all" "all" = L ∧
    (v ≠ "all" → ∀ t, t ∈ filterTickets L "" v "all" ↔ t ∈ L ∧ t.status = v) ∧
    (v ≠ "all" → ∀ t, t ∈ filterTickets L "" "all" v ↔ t ∈ L ∧ t.priority = v) := by
  refine ⟨?_, ?_, ?_⟩
  · simp [filterTickets]
  · intro hv t
    simp [filterTickets, hv, List.mem_filter]
  · intro hv t
    simp [filterTickets, hv, List.mem_filter]

/-- Witness for C2: on the example list, `"all"` is a no-op and status
`"open"` keeps exactly the open ticket. -/
theorem filter_all_noop_other_exact_witness :
    filterTickets [exTicket1, exTicket2] "" "all" "all" = [exTicket1, exTicket2] ∧
    (exTicket1 ∈ filterTickets [exTicket1, exTicket2] "" "open" "all" ↔
      exTicket1 ∈ [exTicket1, exTicket2] ∧ exTicket1.status = "open") := by
  exact ⟨(filter_all_noop_other_exact [exTicket1, exTicket2] "open").1,
    (filter_all_noop_other_exact [exTicket1, exTicket2] "open").2.1
      (by decide) exTicket1⟩

/-- C5: on the spec's two-ticket example, searching `"login"` returns only
TKT-1 and filtering status `"resolved"` returns only TKT-2. -/
theorem example_filtering_results :
    filterTickets [exTicket1, exTicket2] "login" "all" "all" = [exTicket1] ∧
    filterTickets [exTicket1, exTicket2] "" "resolved" "all" = [exTicket2] := by
  decide

/-- C7: `getStatusColor` is total on strings; any status whose lowercasing
is outside the five known labels — in particular the empty and the absent
status — gets the default gray class. -/
theorem getStatusColor_default_gray :
    (∀ st : Option String,
      strToLower (jsStrOr st "") ∉
          ["open", "in_progress", "waiting_approval", "resolved", "closed"] →
        getStatusColor st =
          "bg-gray-100 text-gray-800 dark:bg-gray-900 dark:text-gray-200") ∧
    getStatusColor none =
      "bg-gray-100 text-gray-800 dark:bg-gray-900 dark:text-gray-200" ∧
    getStatusColor (some "") =
      "bg-gray-100 text-gray-800 dark:bg-gray-900 dark:text-gray-200" := by
  refine ⟨?_, rfl, rfl⟩
  intro st h
  simp only [List.mem_cons, List.mem_singleton, not_or] at h
  obtain ⟨h1, h2, h3, h4, h5⟩ := h
  simp [getStatusColor, h1, h2, h3, h4, h5]

/-- Witness for C7: the unrecognized status `"banana"` renders with the
default gray class. -/
theorem getStatusColor_default_gray_witness :
    getStatusColor (some "banana") =
      "bg-gray-100 text-gray-800 dark:bg-gray-900 dark:text-gray-200" :=
  getStatusColor_default_gray.1 (some "banana") (by decide)

/-- C3 (counterexample to the claim as stated): the part_007
`ApiClient.request` does throw — on a 500 JSON response with an empty
object body it propagates the exception `"HTTP 500"` (`Except.error`)
instead of returning a `{success: false, ...}` record. -/
theorem request707_throws_on_500 :
    request707 (.response
        { status := 500, statusText := "Internal Server Error",
          contentTypeJson := true, body := .obj [] }) =
      Except.error "HTTP 500" := rfl

/-- C3 (amended): the part_005 `ApiClient.request` never throws — its
result's `success` flag is true exactly on a 2xx response, and any thrown
network error or non-2xx response yields
`{success: false, data: null, error: <message>}`. -/
theorem request505_never_throws (o : HttpOutcome) :
    (request505 o).success = o.isOk ∧
    (o.isOk = false →
      request505 o =
        { success := false, data := Json.null,
          error := some (failureMessage o), message := none }) := by
  cases o with
  | thrown msg => exact ⟨rfl, fun _ => rfl⟩
  | response r =>
    constructor
    · by_cases h : r.isOk = true
      · cases hd : (if r.contentTypeJson then r.body else Json.null) <;>
          simp [request505, HttpOutcome.isOk, h, hd]
      · simp [request505, HttpOutcome.isOk, h, Bool.not_eq_true] at h ⊢
    · intro h
      simp only [HttpOutcome.isOk] at h
      simp [request505, failureMessage, h]

/-- Witness for the amended C3: a thrown network error becomes a returned
failure record with the thrown message. -/
theorem request505_never_throws_witness :
    request505 (.thrown "Failed to fetch") =
      { success := false, data := Json.null
        error := some (failureMessage (.thrown "Failed to fetch"))
        message := none } :=
  (request505_never_throws (.thrown "Failed to fetch")).2 rfl

/-- C4: on a 2xx JSON response, a bare-array body is normalized to
`{tickets: array, total: array.length}`, and a non-array body is passed
through unchanged as the `data` field of a successful result. -/
theorem request505_normalizes_body (r : HttpResponse)
    (hct : r.contentTypeJson = true) (hok : r.isOk = true) :
    (∀ elems, r.body = Json.arr elems →
      request505 (.response r) =
        { success := true,
          data := Json.obj [("tickets", Json.arr elems), ("total", Json.num elems.length)],
          error := none, message := none }) ∧
    (Json.isArr r.body = false →
      (request505 (.response r)).success = true ∧
      (request505 (.response r)).data = r.body) := by
  constructor
  · intro elems hb
    simp [request505, hct, hok, hb]
  · intro hna
    cases hb : r.body
    all_goals first
    | (simp [request505, hct, hok, hb]; done)
    | simp [Json.isArr, hb] at hna

/-- Witness for C4: a 200 JSON response whose body is the empty array is
normalized to `{tickets: [], total: 0}`. -/
theorem request505_normalizes_body_witness :
    request505 (.response
        { status := 200, statusText := "OK",
          contentTypeJson := true, body := Json.arr [] }) =
      { success := true,
        data := Json.obj [("tickets", Json.arr []), ("total", Json.num 0)],
        error := none, message := none } :=
  (request505_normalizes_body
    { status := 200, statusText := "OK", contentTypeJson := true, body := Json.arr [] }
    rfl rfl).1 [] rfl

/-! ## Request construction of the part_005 client (headers and cache) -/

/-- The request options the part_005 `ApiClient.request` hands to `fetch`:
the merged header record (a JavaScript object, modelled as a partial map
from header names to values), the cache mode, and the redirect mode. -/
structure FetchInit where
  headers : String → Option String
  cache : String
  redirect : String

/-- Embedding of the option construction in `ApiClient.request`
(`src/unnamed/part_005`): headers start from `Content-Type:
application/json`, are overridden by the caller's `options.headers` spread,
and get `Authorization: Bearer <token>` exactly when the token is truthy;
`cache` is always `'no-store'` and `redirect` is `'follow'`. -/
def buildFetchInit (optHeaders : String → Option String) (token : Option String) :
    FetchInit :=
  let base : String → Option String :=
    fun k => if k = "Content-Type" then some "application/json" else none
  let merged : String → Option String :=
    fun k => match optHeaders k with
      | some v => some v
      | none => base k
  let withAuth : String → Option String :=
    match token with
    | some t =>
      if t ≠ "" then
        fun k => if k = "Authorization" then some ("Bearer " ++ t) else merged k
      else merged
    | none => merged
  { headers := withAuth, cache := "no-store", redirect := "follow" }

/-- C6: every request built by the part_005 client uses `cache: 'no-store'`,
and (when the caller passes no `Authorization` header of its own, as no call
site does) the `Authorization` header is `Bearer <token>` exactly when a
token was obtained — absent when the token is `none` or empty. -/
theorem buildFetchInit_no_store_and_bearer
    (optHeaders : String → Option String) (token : Option String)
    (hNoAuth : optHeaders "Authorization" = none) :
    (buildFetchInit optHeaders token).cache = "no-store" ∧
    (buildFetchInit optHeaders token).headers "Authorization" =
      (match token with
       | some t => if t = "" then none else some ("Bearer " ++ t)
       | none => none) := by
  refine ⟨rfl, ?_⟩
  cases token with
  | none => simp [buildFetchInit, hNoAuth]
  | some t =>
    by_cases ht : t = "" <;> simp [buildFetchInit, ht, hNoAuth]

/-- Witness for C6: with no caller headers and token `"tok"`, the built
request is `no-store` and carries `Authorization: Bearer tok`. -/
theorem buildFetchInit_no_store_and_bearer_witness :
    (buildFetchInit (fun _ => none) (some "tok")).cache = "no-store" ∧
    (buildFetchInit (fun _ => none) (some "tok")).headers "Authorization" =
      some ("Bearer " ++ "tok") :=
  buildFetchInit_no_store_and_bearer (fun _ => none) (some "tok") rfl

/-! ## Mock tickets route `GET` of `src/unnamed/part_005`
(`src/frontend/src/app/api/tickets/route.ts` shape) -/

/-- A ticket record of the mock route's in-memory array. -/
structure MTicket where
  id : String
  subject : String
  description : String
  customer_email : String
  status : String
  priority : String
  category : String
deriving DecidableEq, Repr

/-- The route's `mockTickets` array. -/
def mockRouteTickets : List MTicket :=
  [{ id := "TKT-001", subject := "Login issues after password reset",
     description := "User cannot login after resetting password",
     customer_email := "john@example.com", status := "open",
     priority := "high", category := "technical" },
   { id := "TKT-002", subject := "Billing inquiry for premium plan",
     description := "Customer wants to upgrade to premium plan",
     customer_email := "sarah@example.com", status := "in_progress",
     priority := "medium", category := "billing" }]

/-- The route's status/priority filtering pass over `mockTickets`:
a query parameter is applied when present, non-empty (JavaScript
truthiness of `searchParams.get`) and different from `"all"`. -/
def routeFilteredTickets (status priority : Option String) : List MTicket :=
  let f1 := match status with
    | some s =>
      if s ≠ "" ∧ s ≠ "all" then mockRouteTickets.filter (fun t => t.status == s)
      else mockRouteTickets
    | none => mockRouteTickets
  match priority with
  | some p => if p ≠ "" ∧ p ≠ "all" then f1.filter (fun t => t.priority == p) else f1
  | none => f1

/-- The JSON body the mock route returns on success. -/
structure RouteResponse where
  success : Bool
  data : List MTicket
  total : Nat
  page : Nat
  limit : Nat
deriving Repr

/-- Embedding of the authenticated path of the mock tickets `GET` route:
filter by status and priority, slice the first `limit` tickets into
`data`, and report the pre-slice count as `total`. -/
def ticketsRouteGET (status priority : Option String) (limit : Nat) : RouteResponse :=
  let filtered := routeFilteredTickets status priority
  { success := true, data := filtered.take limit, total := filtered.length,
    page := 1, limit := limit }

/-- C9: the mock route returns at most `limit` tickets while `total` counts
every ticket matching the filters before the limit is applied; with
`limit = 1` and no filters, `total` (2) exceeds the number returned (1). -/
theorem ticketsRoute_total_counts_before_limit :
    (∀ (status priority : Option String) (limit : Nat),
      (ticketsRouteGET status priority limit).data.length ≤ limit ∧
      (ticketsRouteGET status priority limit).total =
        (routeFilteredTickets status priority).length) ∧
    (ticketsRouteGET none none 1).data.length < (ticketsRouteGET none none 1).total := by
  refine ⟨fun s p l => ⟨?_, rfl⟩, by decide⟩
  simp [ticketsRouteGET, List.length_take]

/-! ## New-ticket submit handler of `src/unnamed/part_008`

The handler's observable state (component state plus the refs) and its
transition on one submit attempt. A submission that passes both guards
performs exactly one HTTP request whose result is the `SubmitOutcome`;
the timers that re-enable the form and trigger the redirect are collapsed,
so the returned state is the state once the handler (and its `finally`
timeout) has run. -/

/-- Component state and refs of the new-ticket form. -/
structure FormState where
  subject : String
  query : String
  priority : String
  category : String
  isLoading : Bool
  error : String
  success : String
  lastSubmission : String
deriving DecidableEq, Repr

/-- Result of the one HTTP request a non-ignored submission makes. -/
inductive SubmitOutcome where
  | succeeded (ticketId : String) (hasAiResponse : Bool)
  | failed (errName : String) (errMsg : String)

/-- The duplicate-content key `` `${subject}_${query}` ``. -/
def currentSubmission (s : FormState) : String :=
  s.subject ++ "_" ++ s.query

/-- The error-message classification chain of the catch block. -/
def classifyError (name msg : String) : String :=
  if name = "AbortError" then "Request was cancelled."
  else if strIncludes msg "timeout" then
    "⏱️ Request timed out. Your ticket may still be processing. Please check your tickets in a moment."
  else if strIncludes msg "duplicate" then
    "This ticket was already created. Please check your tickets."
  else if strIncludes msg "404" then
    "❌ API endpoint not found. Please check if the backend server is running on the correct port."
  else if strIncludes msg "401" || strIncludes msg "Unauthorized" then
    "Authentication error. Please sign out and back in."
  else if strIncludes msg "400" then
    "Invalid request. Please check your input and try again."
  else if strIncludes msg "500" then
    "Server error. Our team has been notified. Please try again in a few minutes."
  else "Failed to create ticket: " ++ msg

/-- Embedding of `handleSubmit` from `src/unnamed/part_008`: returns the
state after the attempt and whether an HTTP request was started. An
in-flight submission is ignored unchanged; repeated content is rejected
with an error message; otherwise the request runs and the success branch
stores the submission key and resets the form while the catch branch sets
the classified error and clears the submission key. -/
def handleSubmit (s : FormState) (o : SubmitOutcome) : FormState × Bool :=
  if s.isLoading then (s, false)
  else if s.lastSubmission == currentSubmission s then
    ({ s with error := "This request was already submitted. Please check your tickets." },
     false)
  else
    let s1 :=
      { s with
        isLoading := true
        error := ""
        success := ""
        lastSubmission := currentSubmission s }
    match o with
    | .succeeded _ hasAi =>
      let okMsg :=
        if hasAi then "✅ Ticket created successfully! AI has processed your request."
        else "✅ Ticket created successfully! Our team will review your request."
      ({ s1 with
         success := okMsg
         subject := ""
         query := ""
         priority := "medium"
         category := "general"
         isLoading := false },
       true)
    | .failed name msg =>
      ({ s1 with
         error := classifyError name msg
         lastSubmission := ""
         isLoading := false },
       true)

/-- C8: while a submission is in flight (`isLoading`), a further submit
attempt returns with the state unchanged and starts no HTTP request. -/
theorem handleSubmit_ignores_inflight (s : FormState) (o : SubmitOutcome)
    (h : s.isLoading = true) :
    handleSubmit s o = (s, false) := by
  simp [handleSubmit, h]

/-- Witness for C8: a concrete in-flight state is returned untouched with
no request. -/
theorem handleSubmit_ignores_inflight_witness :
    handleSubmit
      { subject := "a", query := "b", priority := "medium", category := "general",
        isLoading := true, error := "", success := "", lastSubmission := "" }
      (.failed "Error" "HTTP 500") =
    ({ subject := "a", query := "b", priority := "medium", category := "general",
       isLoading := true, error := "", success := "", lastSubmission := "" },
     false) :=
  handleSubmit_ignores_inflight _ _ rfl

/-- C10: for any submission that passes both guards, a failure clears the
stored last-submission key (so the content can be retried) while a success
stores it, and resubmitting the same subject and query after a success is
rejected with the duplicate error message and starts no request. -/
theorem handleSubmit_lastSubmission_policy (s : FormState)
    (name msg ticketId : String) (hasAi : Bool) (o : SubmitOutcome)
    (hload : s.isLoading = false) (hdup : s.lastSubmission ≠ currentSubmission s) :
    ((handleSubmit s (.failed name msg)).1.lastSubmission = "" ∧
      (handleSubmit s (.failed name msg)).2 = true) ∧
    ((handleSubmit s (.succeeded ticketId hasAi)).1.lastSubmission =
        currentSubmission s ∧
      (handleSubmit s (.succeeded ticketId hasAi)).2 = true ∧
      handleSubmit
          { (handleSubmit s (.succeeded ticketId hasAi)).1 with
            subject := s.subject, query := s.query } o =
        ({ (handleSubmit s (.succeeded ticketId hasAi)).1 with
           subject := s.subject, query := s.query,
           error := "This request was already submitted. Please check your tickets." },
         false)) := by
  have hdup' : ¬ (s.lastSubmission = s.subject ++ "_" ++ s.query) := by
    simpa [currentSubmission] using hdup
  refine ⟨⟨?_, ?_⟩, ?_, ?_, ?_⟩ <;>
    simp [handleSubmit, hload, hdup', currentSubmission]

/-- Witness for C10: from an idle state with fresh content, a failed
request clears the key, a successful one stores it, and an immediate
identical resubmission is rejected without a request. -/
theorem handleSubmit_lastSubmission_policy_witness :
    ((handleSubmit
        { subject := "Help", query := "It broke", priority := "medium",
          category := "general", isLoading := false, error := "", success := "",
          lastSubmission := "" }
        (.failed "Error" "HTTP 500")).1.lastSubmission = "" ∧
      (handleSubmit
        { subject := "Help", query := "It broke", priority := "medium",
          category := "general", isLoading := false, error := "", success := "",
          lastSubmission := "" }
        (.failed "Error" "HTTP 500")).2 = true) ∧
    ((handleSubmit
        { subject := "Help", query := "It broke", priority := "medium",
          category := "general", isLoading := false, error := "", success := "",
          lastSubmission := "" }
        (.succeeded "TKT-9" true)).1.lastSubmission =
        currentSubmission
          { subject := "Help", query := "It broke", priority := "medium",
            category := "general", isLoading := false, error := "", success := "",
            lastSubmission := "" } ∧
      (handleSubmit
        { subject := "Help", query := "It broke", priority := "medium",
          category := "general", isLoading := false, error := "", success := "",
          lastSubmission := "" }
        (.succeeded "TKT-9" true)).2 = true ∧
      handleSubmit
          { (handleSubmit
              { subject := "Help", query := "It broke", priority := "medium",
                category := "general", isLoading := false, error := "", success := "",
                lastSubmission := "" }
              (.succeeded "TKT-9" true)).1 with
            subject := "Help", query := "It broke" }
          (.failed "Error" "HTTP 500") =
        ({ (handleSubmit
              { subject := "Help", query := "It broke", priority := "medium",
                category := "general", isLoading := false, error := "", success := "",
                lastSubmission := "" }
              (.succeeded "TKT-9" true)).1 with
           subject := "Help", query := "It broke",
           error := "This request was already submitted. Please check your tickets." },
         false)) :=
  handleSubmit_lastSubmission_policy
    { subject := "Help", query := "It broke", priority := "medium",
      category := "general", isLoading := false, error := "", success := "",
      lastSubmission := "" }
    "Error" "HTTP 500" "TKT-9" true (.failed "Error" "HTTP 500") rfl (by decide)

end PortiaDashboard
